/-
Verification of the UltraOCR Go SDK (nuveo/ultraocr-sdk-go) against its
natural-language specification.

The development shallowly embeds the SDK's client code (package ultraocr,
current revision: the files defining the exported `Client` type, `isNil`,
the response models and the `common` constants/errors; the repository also
carries two older snapshots of functions.go that were superseded by that
revision).  HTTP transport, the filesystem and JSON (de)serialisation are
external collaborators; they are modelled as explicit environment
parameters (outcome values handed to each embedded function), and the
requests a function issues are returned as an explicit trace so that
theorems can speak about what was sent.  Go `map` values are modelled as
association lists with first-match lookup, zero-value reads for missing
keys and overwriting insertion; Go `time.Time` is modelled as natural
numbers counting seconds.
-/
import Mathlib

namespace UltraOCR

/-- Error values of the `common` package (`ErrMountingRequest`,
`ErrDoingRequest`, `ErrInvalidStatusCode`, `ErrParsingRequestBody`,
`ErrParsingResponse`, `ErrReadFile`) together with the timeout error
returned by the wait utilities. -/
inductive SdkError where
  | mountingRequest
  | doingRequest
  | invalidStatusCode
  | parsingRequestBody
  | parsingResponse
  | readFile
  | timeout
  deriving Repr, DecidableEq

/-- common.STATUS_DONE -/
def STATUS_DONE : String := "done"

/-- common.STATUS_ERROR -/
def STATUS_ERROR : String := "error"

/-- common.KEY_FACEMATCH -/
def KEY_FACEMATCH : String := "facematch"

/-- common.KEY_EXTRA -/
def KEY_EXTRA : String := "extra-document"

/-- common.FLAG_TRUE -/
def FLAG_TRUE : String := "true"

/-- common.RESOURCE_JOB -/
def RESOURCE_JOB : String := "job"

/-- common.RESOURCE_BATCH -/
def RESOURCE_BATCH : String := "batch"

/-- common.POOLING_INTERVAL (seconds) -/
def POOLING_INTERVAL : Nat := 1

/-- common.API_TIMEOUT (seconds) -/
def API_TIMEOUT : Nat := 30

/-- common.BASE_URL -/
def BASE_URL : String := "https://ultraocr.apis.nuveo.ai/v2"

/-- common.AUTH_BASE_URL -/
def AUTH_BASE_URL : String := "https://auth.apis.nuveo.ai/v2"

/-- First-match lookup in an association list (the value stored for a key
in a Go map). -/
def lookupFirst {β : Type} : List (String × β) → String → Option β
  | [], _ => none
  | (k₀, v₀) :: rest, k => if k₀ = k then some v₀ else lookupFirst rest k

/-- Reading `m[k]` from a Go `map[string]string`: the zero value `""` is
returned when the key is absent. -/
def mapGet (m : List (String × String)) (k : String) : String :=
  match lookupFirst m k with
  | some v => v
  | none => ""

/-- Writing `m[k] = v` to a Go map: overwrites an existing entry for `k`,
otherwise adds one. -/
def mapSet {β : Type} : List (String × β) → String → β → List (String × β)
  | [], k, v => [(k, v)]
  | (k₀, v₀) :: rest, k, v =>
    if k₀ = k then (k, v) :: rest else (k₀, v₀) :: mapSet rest k v

/-- `maps.Copy(dst, src)`: every entry of `src` is written into `dst`
(entries of `src` win on key collisions). -/
def mapsCopy (dst src : List (String × String)) : List (String × String) :=
  src.foldl (fun m kv => mapSet m kv.1 kv.2) dst

/-- The session object of the SDK (exported type `Client`).  The
`HttpClient` transport handle is not part of the state model; it is
supplied to each embedded operation as an explicit outcome environment.
`ExpiresAt` is seconds since epoch. -/
structure Client where
  BaseURL : String
  AuthBaseURL : String
  Token : String
  ClientID : String
  ClientSecret : String
  AutoRefresh : Bool
  Expires : Nat
  Timeout : Nat
  Interval : Nat
  ExpiresAt : Nat
  deriving Repr, DecidableEq

/-- NewClient: the default client. -/
def NewClient : Client :=
  { BaseURL := BASE_URL
    AuthBaseURL := AUTH_BASE_URL
    Token := ""
    ClientID := ""
    ClientSecret := ""
    AutoRefresh := false
    Expires := 0
    Timeout := API_TIMEOUT
    Interval := POOLING_INTERVAL
    ExpiresAt := 0 }

/-- Outcome of one HTTP PUT attempted through the transport, as observed by
`uploadFile`: building the request can fail, the transport can fail, or a
response with some status code arrives (the response body is ignored by
`uploadFile`). -/
inductive PutOutcome where
  | mountFail
  | transportFail
  | response (status : Nat)
  deriving Repr, DecidableEq

/-- uploadFile (current revision): PUT the bytes to the presigned URL;
ErrMountingRequest if the request cannot be built, ErrDoingRequest on
transport failure, ErrInvalidStatusCode unless the status is 200, nil
otherwise.  `none` models a nil Go error. -/
def uploadFile (outcome : PutOutcome) : Option SdkError :=
  match outcome with
  | .mountFail => some .mountingRequest
  | .transportFail => some .doingRequest
  | .response status => if status ≠ 200 then some .invalidStatusCode else none

/-- UploadFileBase64: uploads the base64 string via uploadFile. -/
def UploadFileBase64 (outcome : PutOutcome) : Option SdkError :=
  uploadFile outcome

/-- UploadFile: reads the file at the path (the read outcome `fileRead` is
the environment: `none` models a failing `os.ReadFile`, `some bytes` a
successful one) and uploads the bytes; ErrReadFile when the read fails. -/
def UploadFile (fileRead : Option (List Nat)) (outcome : PutOutcome) : Option SdkError :=
  match fileRead with
  | none => some .readFile
  | some _ => uploadFile outcome

/-- Body of the authentication response as far as the SDK inspects it:
either a well-formed token payload or something `json.Unmarshal` rejects. -/
inductive WireBody where
  | tokenBody (token : String)
  | malformed
  deriving Repr, DecidableEq

/-- Outcome of the token POST as observed by `Authenticate`. -/
inductive AuthOutcome where
  | mountFail
  | transportFail
  | response (status : Nat) (body : WireBody)
  deriving Repr, DecidableEq

/-- Authenticate (current revision): POSTs the credentials to
`{AuthBaseURL}/token` and, on a 200 response with a well-formed body,
stores the returned token and sets `ExpiresAt` to now plus `expires`
minutes; every failure leaves the client unchanged and returns the
corresponding error.  (Marshalling the credential map cannot fail in Go,
so no outcome is modelled for it.)  Returns the updated client and the
Go error. -/
def Authenticate (c : Client) (now : Nat) (clientID clientSecret : String)
    (expires : Nat) (outcome : AuthOutcome) : Client × Option SdkError :=
  match outcome with
  | .mountFail => (c, some .mountingRequest)
  | .transportFail => (c, some .doingRequest)
  | .response status body =>
    if status ≠ 200 then (c, some .invalidStatusCode)
    else
      match body with
      | .malformed => (c, some .parsingResponse)
      | .tokenBody t => ({ c with Token := t, ExpiresAt := now + expires * 60 }, none)

/-- autoAuthenticate (current revision): when auto refresh is on and the
current time is strictly past `ExpiresAt` (`time.Now().After`), it calls
`Authenticate` with the stored credentials.  Returns the updated client
copy, the Go error, and the number of Authenticate calls performed. -/
def autoAuthenticate (c : Client) (now : Nat) (outcome : AuthOutcome) :
    Client × Option SdkError × Nat :=
  if c.AutoRefresh = true ∧ c.ExpiresAt < now then
    let r := Authenticate c now c.ClientID c.ClientSecret c.Expires outcome
    (r.1, r.2, 1)
  else (c, none, 0)

/-- Number of Authenticate calls triggered by one authenticated call (get
or post) on the client.  In the source, `request` runs autoAuthenticate on
its receiver; `request`, `get` and `post` all take the receiver by value,
so the Token/ExpiresAt written by the refresh live on a local copy and the
caller-held `Client` is left unchanged by the call. -/
def authCallsOfRequest (c : Client) (now : Nat) (outcome : AuthOutcome) : Nat :=
  (autoAuthenticate c now outcome).2.2

/-- Two successive authenticated calls on the same user-held client.  The
second call sees the same `Client` value as the first: the copy updated by
auto refresh inside `request` was discarded when `request` returned
(value receiver).  Returns the Authenticate call counts of each call. -/
def twoCallsAuthCount (c : Client) (now₁ now₂ : Nat) (o₁ o₂ : AuthOutcome) : Nat × Nat :=
  (authCallsOfRequest c now₁ o₁, authCallsOfRequest c now₂ o₂)

/-- SignedUrlResponse: response of GenerateSignedUrl. -/
structure SignedUrlResponse where
  Expires : String
  Id : String
  StatusURL : String
  URLs : List (String × String)
  deriving Repr, DecidableEq

/-- CreatedResponse: response of the submission calls. -/
structure CreatedResponse where
  Id : String
  StatusURL : String
  deriving Repr, DecidableEq

/-- JobResultResponse: a job result record.  The opaque payload fields
(`Result`, `ClientData`, `Validation`) are modelled as strings, since the
SDK never inspects them. -/
structure JobResultResponse where
  Result : String
  JobID : String
  CreatedAt : String
  Service : String
  Status : String
  Error : String
  ProcessTime : String
  Filename : String
  ValidationStatus : String
  deriving Repr, DecidableEq

/-- BatchStatusJobs: one job summary inside a batch status. -/
structure BatchStatusJobs where
  JobID : String
  CreatedAt : String
  ResultURL : String
  Status : String
  Error : String
  deriving Repr, DecidableEq

/-- BatchStatusResponse: a batch status record. -/
structure BatchStatusResponse where
  BatchID : String
  CreatedAt : String
  Service : String
  Status : String
  Error : String
  Jobs : List BatchStatusJobs
  deriving Repr, DecidableEq

/-- Go `any` values that reach `isNil` and `post` as the metadata body:
nil, a `map[string]any`, a `[]map[string]any`, or anything else.  Map
values are collapsed to strings; only emptiness matters to `isNil`. -/
inductive GoAny where
  | goNil
  | goMap (entries : List (String × String))
  | goList (items : List (List (String × String)))
  | goOther
  deriving Repr, DecidableEq

/-- isNil: nil, an empty `[]map[string]any` and an empty `map[string]any`
are "nil"; every other value is not. -/
def isNil (value : GoAny) : Bool :=
  match value with
  | .goNil => true
  | .goList items => items.length = 0
  | .goMap entries => entries.length = 0
  | .goOther => false

/-- One request as issued by the request executor: URL, method, the body
handed to the transport (`some b` stands for the JSON encoding of `b`,
`none` for a nil body reader), and the query parameters. -/
structure RequestRecord where
  url : String
  method : String
  body : Option GoAny
  params : List (String × String)
  deriving Repr, DecidableEq

/-- post (current revision): `if isNil(body)` it marshals the body and
sends the encoding; otherwise it sends a nil body.  The record returned is
the request handed to `request`. -/
def post (url : String) (body : GoAny) (params : List (String × String)) : RequestRecord :=
  if isNil body then { url := url, method := "POST", body := some body, params := params }
  else { url := url, method := "POST", body := none, params := params }

/-- The POST request issued by GenerateSignedUrl for the given resource,
service, metadata and query parameters. -/
def generateSignedUrlRequest (c : Client) (service resource : String) (metadata : GoAny)
    (params : List (String × String)) : RequestRecord :=
  post (c.BaseURL ++ "/ocr/" ++ resource ++ "/" ++ service) metadata params

/-- Environment of one SendJob/SendBatch run: the outcome of the
GenerateSignedUrl round trip, the filesystem (`read path` is the outcome
of `os.ReadFile path`), and the transport outcome of the PUT to each
URL. -/
structure SendEnv where
  signedUrl : Except SdkError SignedUrlResponse
  read : String → Option (List Nat)
  put : String → PutOutcome

/-- SendJob (current revision): generate a signed URL set, upload the
document to `urls["document"]`, then if `params["facematch"] == "true"`
upload the facematch file to `urls["selfie"]`, then if
`params["extra-document"] == "true"` upload the extra file to
`urls["extra_document"]`; each failing step short-circuits the rest.
Returns the trace of attempted uploads, in order, as (target URL, file
path argument) pairs, together with the outcome of the call. -/
def SendJob (env : SendEnv) (filePath facematchFilePath extraFilePath : String)
    (params : List (String × String)) :
    List (String × String) × Except SdkError CreatedResponse :=
  match env.signedUrl with
  | .error e => ([], .error e)
  | .ok response =>
    let urls := response.URLs
    let created : CreatedResponse := { Id := response.Id, StatusURL := response.StatusURL }
    let extraStep : List (String × String) × Except SdkError CreatedResponse :=
      if mapGet params KEY_EXTRA = FLAG_TRUE then
        let u := mapGet urls "extra_document"
        match UploadFile (env.read extraFilePath) (env.put u) with
        | some e => ([(u, extraFilePath)], .error e)
        | none => ([(u, extraFilePath)], .ok created)
      else ([], .ok created)
    let facematchStep : List (String × String) × Except SdkError CreatedResponse :=
      if mapGet params KEY_FACEMATCH = FLAG_TRUE then
        let u := mapGet urls "selfie"
        match UploadFile (env.read facematchFilePath) (env.put u) with
        | some e => ([(u, facematchFilePath)], .error e)
        | none => ((u, facematchFilePath) :: extraStep.1, extraStep.2)
      else extraStep
    let docUrl := mapGet urls "document"
    match UploadFile (env.read filePath) (env.put docUrl) with
    | some e => ([(docUrl, filePath)], .error e)
    | none => ((docUrl, filePath) :: facematchStep.1, facematchStep.2)

/-- SendJobBase64 (current revision): adds `base64=true` to the query
parameters (`maps.Copy(p, params)`, so `params` wins on collisions), then
proceeds as SendJob but uploading the given base64 strings through
UploadFileBase64, reading the flags from the merged map `p`.  The trace
lists (target URL, base64 data argument) pairs. -/
def SendJobBase64 (env : SendEnv) (file facematchFile extraFile : String)
    (params : List (String × String)) :
    List (String × String) × Except SdkError CreatedResponse :=
  let p := mapsCopy [("base64", FLAG_TRUE)] params
  match env.signedUrl with
  | .error e => ([], .error e)
  | .ok response =>
    let urls := response.URLs
    let created : CreatedResponse := { Id := response.Id, StatusURL := response.StatusURL }
    let extraStep : List (String × String) × Except SdkError CreatedResponse :=
      if mapGet p KEY_EXTRA = FLAG_TRUE then
        let u := mapGet urls "extra_document"
        match UploadFileBase64 (env.put u) with
        | some e => ([(u, extraFile)], .error e)
        | none => ([(u, extraFile)], .ok created)
      else ([], .ok created)
    let facematchStep : List (String × String) × Except SdkError CreatedResponse :=
      if mapGet p KEY_FACEMATCH = FLAG_TRUE then
        let u := mapGet urls "selfie"
        match UploadFileBase64 (env.put u) with
        | some e => ([(u, facematchFile)], .error e)
        | none => ((u, facematchFile) :: extraStep.1, extraStep.2)
      else extraStep
    let docUrl := mapGet urls "document"
    match UploadFileBase64 (env.put docUrl) with
    | some e => ([(docUrl, file)], .error e)
    | none => ((docUrl, file) :: facematchStep.1, facematchStep.2)

/-- A value inside the single-step request body: the base64 file strings
or the metadata map. -/
inductive BodyValue where
  | str (s : String)
  | metadataVal (m : List (String × String))
  deriving Repr, DecidableEq

/-- The body map SendJobSingleStep (current revision) builds before
posting: it starts as `{"data": file, "metadata": metadata}`; if
`params["extra-document"] == "true"` it gains `"extra": extraFile`; if
`params["facematch"] == "true"` it gains `"facematch": facematchFile`. -/
def sendJobSingleStepBody (file facematchFile extraFile : String)
    (metadata : List (String × String)) (params : List (String × String)) :
    List (String × BodyValue) :=
  let body₀ : List (String × BodyValue) :=
    [("data", BodyValue.str file), ("metadata", BodyValue.metadataVal metadata)]
  let body₁ :=
    if mapGet params KEY_EXTRA = FLAG_TRUE then
      mapSet body₀ "extra" (BodyValue.str extraFile)
    else body₀
  let body₂ :=
    if mapGet params KEY_FACEMATCH = FLAG_TRUE then
      mapSet body₁ KEY_FACEMATCH (BodyValue.str facematchFile)
    else body₁
  body₂

/-- The request issued by SendJobSingleStep: URL, method, the body handed
to the transport (`some b` stands for the JSON encoding of the map `b`,
`none` for a nil body reader), and the query parameters. -/
structure SingleStepRequest where
  url : String
  method : String
  body : Option (List (String × BodyValue))
  params : List (String × String)
  deriving Repr, DecidableEq

/-- SendJobSingleStep (current revision), up to the POST it issues: the
body map above is handed to post, whose `if isNil(body)` test — on a
non-nil `map[string]any`, isNil is the emptiness test — marshals and
sends the map only when it is empty and otherwise sends a nil body
reader. -/
def sendJobSingleStepRequest (c : Client) (service file facematchFile extraFile : String)
    (metadata : List (String × String)) (params : List (String × String)) :
    SingleStepRequest :=
  let url := c.BaseURL ++ "/ocr/job/send/" ++ service
  let body := sendJobSingleStepBody file facematchFile extraFile metadata params
  if body.length = 0 then
    { url := url, method := "POST", body := some body, params := params }
  else
    { url := url, method := "POST", body := none, params := params }

/-- The polling loop of WaitForJobDone (current revision).  `fetch k` is
the outcome of the k-th GetJobResult call; `now` advances by `interval`
at each sleep; the loop returns the fetched record as soon as its status
is done or error, fails with the timeout error when the status is not
terminal and `now` is strictly past `deadline`, and otherwise sleeps and
retries.  `fuel` bounds the number of iterations the model unfolds
(`none` = the loop ran longer than `fuel` iterations); the Go loop itself
is unbounded. -/
def waitForJobDoneFuel (fetch : Nat → Except SdkError JobResultResponse)
    (interval deadline : Nat) :
    Nat → Nat → Nat → Option (Except SdkError JobResultResponse × Nat)
  | 0, _, _ => none
  | fuel + 1, k, now =>
    match fetch k with
    | .error e => some (.error e, now)
    | .ok result =>
      if result.Status = STATUS_DONE ∨ result.Status = STATUS_ERROR then
        some (.ok result, now)
      else if deadline < now then
        some (.error SdkError.timeout, now)
      else
        waitForJobDoneFuel fetch interval deadline fuel (k + 1) (now + interval)

/-- WaitForJobDone (current revision): the deadline is `now` plus the
client timeout; the loop polls at the client interval. -/
def WaitForJobDone (c : Client) (fetch : Nat → Except SdkError JobResultResponse)
    (now fuel : Nat) : Option (Except SdkError JobResultResponse × Nat) :=
  waitForJobDoneFuel fetch c.Interval (now + c.Timeout) fuel 0 now

/-- The batch polling loop of WaitForBatchDone (current revision): same
shape as the job loop, over GetBatchStatus outcomes; a terminal status
breaks out of the loop with the fetched record. -/
def waitForBatchLoopFuel (fetch : Nat → Except SdkError BatchStatusResponse)
    (interval deadline : Nat) :
    Nat → Nat → Nat → Option (Except SdkError BatchStatusResponse × Nat)
  | 0, _, _ => none
  | fuel + 1, k, now =>
    match fetch k with
    | .error e => some (.error e, now)
    | .ok result =>
      if result.Status = STATUS_DONE ∨ result.Status = STATUS_ERROR then
        some (.ok result, now)
      else if deadline < now then
        some (.error SdkError.timeout, now)
      else
        waitForBatchLoopFuel fetch interval deadline fuel (k + 1) (now + interval)

/-- The wait-jobs tail of WaitForBatchDone: WaitForJobDone on each listed
job in order, each with a fresh deadline computed from the time the
previous wait finished.  `fetchJob id k` is the outcome of the k-th
GetJobResult call for job `id`.  Returns the first error (if any) and the
final time. -/
def waitForJobsSeq (c : Client) (fetchJob : String → Nat → Except SdkError JobResultResponse)
    (fuel : Nat) : List BatchStatusJobs → Nat → Option (Option SdkError × Nat)
  | [], now => some (none, now)
  | job :: rest, now =>
    match WaitForJobDone c (fetchJob job.JobID) now fuel with
    | none => none
    | some (.error e, t) => some (some e, t)
    | some (.ok _, t) => waitForJobsSeq c fetchJob fuel rest t

/-- WaitForBatchDone (current revision): run the batch polling loop; on a
terminal batch record, if `waitJobs` is true additionally wait for every
job listed in the record, sequentially; the batch record fetched by the
loop is what the call returns on success. -/
def WaitForBatchDone (c : Client) (fetchBatch : Nat → Except SdkError BatchStatusResponse)
    (fetchJob : String → Nat → Except SdkError JobResultResponse)
    (waitJobs : Bool) (now fuel : Nat) :
    Option (Except SdkError BatchStatusResponse × Nat) :=
  match waitForBatchLoopFuel fetchBatch c.Interval (now + c.Timeout) fuel 0 now with
  | none => none
  | some (.error e, t) => some (.error e, t)
  | some (.ok result, t) =>
    if waitJobs then
      match waitForJobsSeq c fetchJob fuel result.Jobs t with
      | none => none
      | some (some e, t₁) => some (.error e, t₁)
      | some (none, t₁) => some (.ok result, t₁)
    else some (.ok result, t)

/-- Body of a job-results page response: a well-formed page or something
`json.Unmarshal` rejects. -/
inductive GetJobsBody where
  | pageBody (jobs : List JobResultResponse) (nextPageToken : String)
  | malformed
  deriving Repr, DecidableEq

/-- Outcome of one `get` of the job-results page, as observed by
GetJobs. -/
inductive GetOutcome where
  | reqError (e : SdkError)
  | response (status : Nat) (body : GetJobsBody)
  deriving Repr, DecidableEq

/-- The pagination loop of GetJobs (current revision).  `fetch k` is the
outcome of the k-th GET; each iteration issues one request with the
current `params`, fails on a request error, a non-200 status or a
malformed body, otherwise appends the page's jobs, writes
`params["nextPageToken"]` and continues while the token is non-empty.
Returns the trace of the query-parameter maps of every request issued, in
order, together with the outcome. -/
def getJobsLoopFuel (fetch : Nat → GetOutcome) :
    Nat → Nat → List (String × String) → List JobResultResponse →
    Option (List (List (String × String)) × Except SdkError (List JobResultResponse))
  | 0, _, _, _ => none
  | fuel + 1, k, params, jobs =>
    match fetch k with
    | .reqError e => some ([params], .error e)
    | .response status body =>
      if status ≠ 200 then some ([params], .error SdkError.invalidStatusCode)
      else
        match body with
        | .malformed => some ([params], .error SdkError.parsingResponse)
        | .pageBody pageJobs tok =>
          let params₁ := mapSet params "nextPageToken" tok
          if tok = "" then some ([params], .ok (jobs ++ pageJobs))
          else
            match getJobsLoopFuel fetch fuel (k + 1) params₁ (jobs ++ pageJobs) with
            | none => none
            | some (trace, res) => some (params :: trace, res)

/-- The URL GetJobs sends every page request to. -/
def getJobsUrl (c : Client) : String :=
  c.BaseURL ++ "/ocr/job/results"

/-- GetJobs (current revision): the initial query parameters are
`{"startDate": start, "endtDate": endD}` — exactly as spelled in the
source — and the loop paginates until an empty next-page token. -/
def GetJobs (c : Client) (fetch : Nat → GetOutcome) (start endD : String) (fuel : Nat) :
    Option (List (List (String × String)) × Except SdkError (List JobResultResponse)) :=
  getJobsLoopFuel fetch fuel 0 [("startDate", start), ("endtDate", endD)] []

namespace Legacy

/-- SendJob as in the two superseded functions.go snapshots: same
orchestration as the current revision, but the facematch flag uploads the
extra file path to the "selfie" URL and the extra-document flag uploads
the facematch file path to the "extra_document" URL (the two auxiliary
file arguments are fed to the opposite slots). -/
def SendJob (env : SendEnv) (filePath facematchFilePath extraFilePath : String)
    (params : List (String × String)) :
    List (String × String) × Except SdkError CreatedResponse :=
  match env.signedUrl with
  | .error e => ([], .error e)
  | .ok response =>
    let urls := response.URLs
    let created : CreatedResponse := { Id := response.Id, StatusURL := response.StatusURL }
    let extraStep : List (String × String) × Except SdkError CreatedResponse :=
      if mapGet params KEY_EXTRA = FLAG_TRUE then
        let u := mapGet urls "extra_document"
        match UploadFile (env.read facematchFilePath) (env.put u) with
        | some e => ([(u, facematchFilePath)], .error e)
        | none => ([(u, facematchFilePath)], .ok created)
      else ([], .ok created)
    let facematchStep : List (String × String) × Except SdkError CreatedResponse :=
      if mapGet params KEY_FACEMATCH = FLAG_TRUE then
        let u := mapGet urls "selfie"
        match UploadFile (env.read extraFilePath) (env.put u) with
        | some e => ([(u, extraFilePath)], .error e)
        | none => ((u, extraFilePath) :: extraStep.1, extraStep.2)
      else extraStep
    let docUrl := mapGet urls "document"
    match UploadFile (env.read filePath) (env.put docUrl) with
    | some e => ([(docUrl, filePath)], .error e)
    | none => ((docUrl, filePath) :: facematchStep.1, facematchStep.2)

/-- The single-step request body as in the superseded snapshots: the
extra-document flag writes the facematch file under the key "facematch",
and the facematch flag then writes the extra file under the same key
"facematch"; no "extra" key is ever written. -/
def sendJobSingleStepBody (file facematchFile extraFile : String)
    (metadata : List (String × String)) (params : List (String × String)) :
    List (String × BodyValue) :=
  let body₀ : List (String × BodyValue) :=
    [("data", BodyValue.str file), ("metadata", BodyValue.metadataVal metadata)]
  let body₁ :=
    if mapGet params "extra-document" = "true" then
      mapSet body₀ "facematch" (BodyValue.str facematchFile)
    else body₀
  let body₂ :=
    if mapGet params "facematch" = "true" then
      mapSet body₁ "facematch" (BodyValue.str extraFile)
    else body₁
  body₂

/-- Whether uploadFile, as in the oldest functions.go snapshot, returns a
non-nil error.  There, the non-200 branch executes `return err` at a point
where `err` is nil, so a bad status code yields a nil error. -/
def uploadFileReturnsError (outcome : PutOutcome) : Bool :=
  match outcome with
  | .mountFail => true
  | .transportFail => true
  | .response _ => false

/-- WaitForJobDone as in the oldest functions.go snapshot: plain
self-recursion on every non-terminal status, with no deadline check.
Fuel-bounded unfolding of that recursion. -/
def waitForJobDoneFuel (fetch : Nat → Except SdkError JobResultResponse) :
    Nat → Nat → Option (Except SdkError JobResultResponse)
  | 0, _ => none
  | fuel + 1, k =>
    match fetch k with
    | .error e => some (.error e)
    | .ok result =>
      if result.Status = STATUS_DONE ∨ result.Status = STATUS_ERROR then
        some (.ok result)
      else
        waitForJobDoneFuel fetch fuel (k + 1)

end Legacy

/-- Looking up through an overwriting insertion: the written key returns
the written value and every other key is unaffected. -/
theorem lookupFirst_mapSet {β : Type} (m : List (String × β)) (k : String) (v : β)
    (k₁ : String) :
    lookupFirst (mapSet m k v) k₁ = if k = k₁ then some v else lookupFirst m k₁ := by
  induction m with
  | nil => simp [mapSet, lookupFirst]
  | cons hd tl ih =>
    by_cases h₀ : hd.1 = k
    · by_cases h₁ : k = k₁ <;> simp [mapSet, lookupFirst, h₀, h₁]
    · by_cases h₁ : hd.1 = k₁
      · have h₂ : ¬ k = k₁ := fun h => h₀ (h₁.trans h.symm)
        have h₃ : ¬ k₁ = k := fun h => h₂ h.symm
        simp [mapSet, lookupFirst, h₀, h₁, h₂, h₃]
      · simp [mapSet, lookupFirst, h₀, h₁, ih]

/-- Reading through an overwriting insertion, at the level of `mapGet`. -/
theorem mapGet_mapSet (m : List (String × String)) (k v k₁ : String) :
    mapGet (mapSet m k v) k₁ = if k = k₁ then v else mapGet m k₁ := by
  by_cases h : k = k₁ <;> simp [mapGet, lookupFirst_mapSet, h]

/-- Looking up a key that is not among the keys of the list gives
nothing. -/
theorem lookupFirst_eq_none_of_not_mem {β : Type} (l : List (String × β)) (k : String)
    (h : k ∉ l.map Prod.fst) : lookupFirst l k = none := by
  induction l with
  | nil => rfl
  | cons hd tl ih =>
    simp only [List.map_cons, List.mem_cons] at h
    push_neg at h
    simp [lookupFirst, ih h.2, Ne.symm h.1]

/-- Reading after `maps.Copy(dst, src)` when the keys of `src` are
pairwise distinct (always the case for a Go map): a key of `src` returns
the value of `src`, any other key falls through to `dst`. -/
theorem mapGet_mapsCopy (src : List (String × String)) (dst : List (String × String))
    (k : String) (hnd : (src.map Prod.fst).Nodup) :
    mapGet (mapsCopy dst src) k =
      match lookupFirst src k with
      | some v => v
      | none => mapGet dst k := by
  induction src generalizing dst with
  | nil => rfl
  | cons hd tl ih =>
    simp only [List.map_cons, List.nodup_cons] at hnd
    have step : mapsCopy dst (hd :: tl) = mapsCopy (mapSet dst hd.1 hd.2) tl := rfl
    rw [step, ih _ hnd.2]
    by_cases h : hd.1 = k
    · have htl : lookupFirst tl k = none := by
        apply lookupFirst_eq_none_of_not_mem
        rw [← h]
        exact hnd.1
      simp [htl, lookupFirst, h, mapGet_mapSet]
    · cases htl : lookupFirst tl k <;>
        simp [lookupFirst, htl, mapGet_mapSet, h]

/-- The `base64=true` entry added by the Base64 submission variants does
not disturb reads of any other key. -/
theorem mapGet_mapsCopy_base64 (params : List (String × String)) (k : String)
    (hnd : (params.map Prod.fst).Nodup) (hk : k ≠ "base64") :
    mapGet (mapsCopy [("base64", FLAG_TRUE)] params) k = mapGet params k := by
  rw [mapGet_mapsCopy params _ k hnd]
  cases h : lookupFirst params k <;> simp [mapGet, h, lookupFirst, Ne.symm hk]

/-- C4: a PUT answered with any status other than 200 makes uploadFile
return the invalid-status error; uploadFile returns a nil error exactly
when the PUT is answered with status 200; UploadFile returns the
file-read error when reading the path fails; and UploadFileBase64
delegates to uploadFile unchanged. -/
theorem uploadFile_error_handling :
    (∀ s : Nat, s ≠ 200 →
      uploadFile (PutOutcome.response s) = some SdkError.invalidStatusCode) ∧
    (∀ o : PutOutcome, uploadFile o = none ↔ o = PutOutcome.response 200) ∧
    (∀ o : PutOutcome, UploadFile none o = some SdkError.readFile) ∧
    (∀ o : PutOutcome, UploadFileBase64 o = uploadFile o) := by
  refine ⟨?_, ?_, ?_, ?_⟩
  · intro s hs
    simp [uploadFile, hs]
  · intro o
    cases o with
    | mountFail => simp [uploadFile]
    | transportFail => simp [uploadFile]
    | response s => by_cases h : s = 200 <;> simp [uploadFile, h]
  · intro o
    rfl
  · intro o
    rfl

/-- Witness for C4 at concrete outcomes: status 500 yields the status
error, status 200 yields a nil error, a failed read yields the file-read
error. -/
theorem uploadFile_error_handling_witness :
    uploadFile (PutOutcome.response 500) = some SdkError.invalidStatusCode ∧
    (uploadFile (PutOutcome.response 200) = none ↔
      PutOutcome.response 200 = PutOutcome.response 200) ∧
    UploadFile none PutOutcome.transportFail = some SdkError.readFile ∧
    UploadFileBase64 PutOutcome.mountFail = uploadFile PutOutcome.mountFail :=
  ⟨uploadFile_error_handling.1 500 (by decide),
   uploadFile_error_handling.2.1 (PutOutcome.response 200),
   uploadFile_error_handling.2.2.1 PutOutcome.transportFail,
   uploadFile_error_handling.2.2.2 PutOutcome.mountFail⟩

/-- C5: Authenticate fails on every non-2xx response status, on transport
failure and on a malformed response body; every failure leaves the client
unchanged, and a nil error occurs only on a 200 response with a
well-formed body, in which case the returned token is stored and the
expiry is set to now plus `expires` minutes. -/
theorem authenticate_error_handling (c : Client) (now : Nat) (id sec : String)
    (e : Nat) :
    (∀ s b, ¬ (200 ≤ s ∧ s < 300) →
      Authenticate c now id sec e (AuthOutcome.response s b)
        = (c, some SdkError.invalidStatusCode)) ∧
    Authenticate c now id sec e AuthOutcome.transportFail
      = (c, some SdkError.doingRequest) ∧
    Authenticate c now id sec e (AuthOutcome.response 200 WireBody.malformed)
      = (c, some SdkError.parsingResponse) ∧
    (∀ o, (Authenticate c now id sec e o).2 ≠ none →
      (Authenticate c now id sec e o).1 = c) ∧
    (∀ o, (Authenticate c now id sec e o).2 = none →
      ∃ t, o = AuthOutcome.response 200 (WireBody.tokenBody t) ∧
        Authenticate c now id sec e o
          = ({ c with Token := t, ExpiresAt := now + e * 60 }, none)) := by
  refine ⟨?_, rfl, by simp [Authenticate], ?_, ?_⟩
  · intro s b hs
    have h200 : s ≠ 200 := by
      intro h
      exact hs ⟨by omega, by omega⟩
    simp [Authenticate, h200]
  · intro o
    cases o with
    | mountFail => intro _; rfl
    | transportFail => intro _; rfl
    | response s b =>
      by_cases h : s = 200
      · cases b with
        | malformed => intro _; simp [Authenticate, h]
        | tokenBody t => simp [Authenticate, h]
      · intro _; simp [Authenticate, h]
  · intro o
    cases o with
    | mountFail => intro h; exact absurd h (by simp [Authenticate])
    | transportFail => intro h; exact absurd h (by simp [Authenticate])
    | response s b =>
      by_cases h : s = 200
      · cases b with
        | malformed => intro hc; exact absurd hc (by simp [Authenticate, h])
        | tokenBody t =>
          intro _
          exact ⟨t, by rw [h], by simp [Authenticate, h]⟩
      · intro hc; exact absurd hc (by simp [Authenticate, h])

/-- Witness for C5 on the default client at concrete outcomes: a 401
response fails and leaves the client unchanged, and a successful response
stores the token with expiry now + 60 minutes. -/
theorem authenticate_error_handling_witness :
    Authenticate NewClient 1000 "id" "sec" 60 (AuthOutcome.response 401 WireBody.malformed)
      = (NewClient, some SdkError.invalidStatusCode) ∧
    (∃ t, AuthOutcome.response 200 (WireBody.tokenBody "tok")
        = AuthOutcome.response 200 (WireBody.tokenBody t) ∧
      Authenticate NewClient 1000 "id" "sec" 60
          (AuthOutcome.response 200 (WireBody.tokenBody "tok"))
        = ({ NewClient with Token := t, ExpiresAt := 1000 + 60 * 60 }, none)) :=
  ⟨(authenticate_error_handling NewClient 1000 "id" "sec" 60).1 401 WireBody.malformed
      (by omega),
   (authenticate_error_handling NewClient 1000 "id" "sec" 60).2.2.2.2
      (AuthOutcome.response 200 (WireBody.tokenBody "tok")) (by simp [Authenticate])⟩

/-- The body map SendJobSingleStep builds does, by itself, carry the
document data under "data" and the metadata under "metadata", the
facematch file under "facematch" exactly when params["facematch"] is
"true", and the extra file under the distinct key "extra" exactly when
params["extra-document"] is "true" — but this map never reaches the
wire (see the nil-body theorem below). -/
theorem sendJobSingleStep_bodyMap_keys (file fmFile exFile : String)
    (md : List (String × String)) (params : List (String × String)) :
    lookupFirst (sendJobSingleStepBody file fmFile exFile md params) "data"
      = some (BodyValue.str file) ∧
    lookupFirst (sendJobSingleStepBody file fmFile exFile md params) "metadata"
      = some (BodyValue.metadataVal md) ∧
    lookupFirst (sendJobSingleStepBody file fmFile exFile md params) "facematch"
      = (if mapGet params KEY_FACEMATCH = FLAG_TRUE
         then some (BodyValue.str fmFile) else none) ∧
    lookupFirst (sendJobSingleStepBody file fmFile exFile md params) "extra"
      = (if mapGet params KEY_EXTRA = FLAG_TRUE
         then some (BodyValue.str exFile) else none) := by
  simp only [sendJobSingleStepBody, KEY_FACEMATCH, KEY_EXTRA, FLAG_TRUE]
  by_cases h₁ : mapGet params "extra-document" = "true" <;>
    by_cases h₂ : mapGet params "facematch" = "true" <;>
      simp [h₁, h₂, lookupFirst_mapSet, lookupFirst]

/-- C7 (refutation at a concrete input): with both flags requested, the
body map SendJobSingleStep builds holds all four of data, metadata,
facematch and extra — yet the POST the call issues carries no request
body at all, because the map, holding at least data and metadata, is
never empty and so fails post's inverted isNil test; the same nil body
is issued even with no flags at all.  The request body therefore never
contains the document data, the metadata or either optional file. -/
theorem sendJobSingleStep_posts_nil_body :
    (sendJobSingleStepRequest NewClient "cnh" "doc64" "face64" "extra64" []
        [("facematch", "true"), ("extra-document", "true")]).body = none ∧
    (sendJobSingleStepRequest NewClient "cnh" "doc64" "face64" "extra64" [] []).body
      = none ∧
    lookupFirst (sendJobSingleStepBody "doc64" "face64" "extra64" []
        [("facematch", "true"), ("extra-document", "true")]) "data"
      = some (BodyValue.str "doc64") ∧
    lookupFirst (sendJobSingleStepBody "doc64" "face64" "extra64" []
        [("facematch", "true"), ("extra-document", "true")]) "metadata"
      = some (BodyValue.metadataVal []) ∧
    lookupFirst (sendJobSingleStepBody "doc64" "face64" "extra64" []
        [("facematch", "true"), ("extra-document", "true")]) "facematch"
      = some (BodyValue.str "face64") ∧
    lookupFirst (sendJobSingleStepBody "doc64" "face64" "extra64" []
        [("facematch", "true"), ("extra-document", "true")]) "extra"
      = some (BodyValue.str "extra64") := by
  refine ⟨rfl, rfl, rfl, rfl, rfl, rfl⟩

/-- C3 (refutation at a concrete input): with the non-empty metadata
map {"k": "v"}, the POST issued by GenerateSignedUrl carries no request
body at all, while with nil metadata it does carry an encoded body — the
isNil test in post is inverted, so a submission with non-empty metadata
never sends its metadata. -/
theorem generateSignedUrl_drops_nonempty_metadata :
    (generateSignedUrlRequest NewClient "cnh" RESOURCE_JOB
        (GoAny.goMap [("k", "v")]) []).body = none ∧
    (generateSignedUrlRequest NewClient "cnh" RESOURCE_JOB GoAny.goNil []).body
      = some GoAny.goNil := by
  exact ⟨rfl, rfl⟩

/-- A fetch environment answering every page request with one empty final
page. -/
def getJobsOnePage : Nat → GetOutcome :=
  fun _ => GetOutcome.response 200 (GetJobsBody.pageBody [] "")

/-- C9 (refutation at a concrete input): on a run answered by a single
empty page, GetJobs issues exactly one request whose query parameters
are startDate=2024-01-01 and endtDate=2024-01-31: the end of the range
travels under the misspelled key "endtDate", and no parameter named
"endDate" is present on the request. -/
theorem getJobs_sends_endtDate :
    GetJobs NewClient getJobsOnePage "2024-01-01" "2024-01-31" 1
      = some ([[("startDate", "2024-01-01"), ("endtDate", "2024-01-31")]],
          Except.ok []) ∧
    lookupFirst [("startDate", "2024-01-01"), ("endtDate", "2024-01-31")] "endDate"
      = none ∧
    lookupFirst [("startDate", "2024-01-01"), ("endtDate", "2024-01-31")] "endtDate"
      = some "2024-01-31" := by
  refine ⟨rfl, by simp [lookupFirst], by simp [lookupFirst]⟩

/-- A client set to auto refresh whose stored expiry timestamp has
passed: the state SetAutoRefresh leaves behind. -/
def autoRefreshClient : Client :=
  { NewClient with
    AutoRefresh := true
    ClientID := "id"
    ClientSecret := "secret"
    Expires := 60
    ExpiresAt := 0 }

/-- A token endpoint that answers 200 with the token "tok". -/
def authOk : AuthOutcome :=
  AuthOutcome.response 200 (WireBody.tokenBody "tok")

/-- C10 (refutation at a concrete input): two successive authenticated
calls at times 10 and 20 on an auto-refresh client whose stored expiry
(0) has passed each trigger one authentication call, even though the
refresh performed during the first call produced a token valid until
3610 ≥ 20: the refreshed Token/ExpiresAt were written to the
value-receiver copy of the client inside request and were discarded when
the call returned, so the second call still sees the stale expiry and
authenticates again instead of performing zero authentication calls. -/
theorem autoRefresh_does_not_persist :
    twoCallsAuthCount autoRefreshClient 10 20 authOk authOk = (1, 1) ∧
    (Authenticate autoRefreshClient 10 "id" "secret" 60 authOk).1.ExpiresAt = 3610 ∧
    (autoAuthenticate autoRefreshClient 10 authOk).1.Token = "tok" := by
  refine ⟨?_, ?_, ?_⟩ <;> rfl

/-- The superseded snapshots of the upload/flag logic, for the record:
the oldest uploadFile signals no error on a non-200 PUT response, and the
legacy single-step body writes the extra file over the facematch file
under the single key "facematch" when both flags are set, never writing
an "extra" key. -/
theorem legacy_variants_diverge :
    Legacy.uploadFileReturnsError (PutOutcome.response 500) = false ∧
    lookupFirst
        (Legacy.sendJobSingleStepBody "f" "fm" "ex" []
          [("facematch", "true"), ("extra-document", "true")]) "facematch"
      = some (BodyValue.str "ex") ∧
    lookupFirst
        (Legacy.sendJobSingleStepBody "f" "fm" "ex" []
          [("facematch", "true"), ("extra-document", "true")]) "extra"
      = none := by
  refine ⟨rfl, ?_, ?_⟩ <;> rfl

/-- C1: whenever the signed-URL round trip succeeds, every file read
succeeds and every PUT is answered 200, SendJob uploads the document path
to urls["document"] first and then, exactly when params["facematch"] is
"true", the facematch path to urls["selfie"], and then, exactly when
params["extra-document"] is "true", the extra path to
urls["extra_document"]; SendJobBase64 produces the same upload sequence
with the base64 data arguments (it reads the flags from params merged
with base64=true, which agrees with params on those keys since the keys
of a Go map are pairwise distinct). -/
theorem sendJob_uploads_facematch_to_selfie (env : SendEnv) (resp : SignedUrlResponse)
    (filePath fmPath exPath : String) (params : List (String × String))
    (hgen : env.signedUrl = Except.ok resp)
    (hread : ∀ p, env.read p ≠ none)
    (hput : ∀ u, env.put u = PutOutcome.response 200)
    (hnd : (params.map Prod.fst).Nodup) :
    (SendJob env filePath fmPath exPath params).1
      = [(mapGet resp.URLs "document", filePath)]
        ++ (if mapGet params KEY_FACEMATCH = FLAG_TRUE
            then [(mapGet resp.URLs "selfie", fmPath)] else [])
        ++ (if mapGet params KEY_EXTRA = FLAG_TRUE
            then [(mapGet resp.URLs "extra_document", exPath)] else []) ∧
    (SendJobBase64 env filePath fmPath exPath params).1
      = [(mapGet resp.URLs "document", filePath)]
        ++ (if mapGet params KEY_FACEMATCH = FLAG_TRUE
            then [(mapGet resp.URLs "selfie", fmPath)] else [])
        ++ (if mapGet params KEY_EXTRA = FLAG_TRUE
            then [(mapGet resp.URLs "extra_document", exPath)] else []) := by
  have hup : ∀ p u, UploadFile (env.read p) (env.put u) = none := by
    intro p u
    cases hr : env.read p with
    | none => exact absurd hr (hread p)
    | some bytes => simp [UploadFile, uploadFile, hput u]
  have hupb : ∀ u, UploadFileBase64 (env.put u) = none := by
    intro u
    simp [UploadFileBase64, uploadFile, hput u]
  have hfm : mapGet (mapsCopy [("base64", FLAG_TRUE)] params) KEY_FACEMATCH
      = mapGet params KEY_FACEMATCH :=
    mapGet_mapsCopy_base64 params _ hnd (by decide)
  have hex : mapGet (mapsCopy [("base64", FLAG_TRUE)] params) KEY_EXTRA
      = mapGet params KEY_EXTRA :=
    mapGet_mapsCopy_base64 params _ hnd (by decide)
  constructor
  · simp only [SendJob, hgen]
    by_cases h₁ : mapGet params KEY_FACEMATCH = FLAG_TRUE <;>
      by_cases h₂ : mapGet params KEY_EXTRA = FLAG_TRUE <;>
        simp [h₁, h₂, hup]
  · simp only [SendJobBase64, hgen, hfm, hex]
    by_cases h₁ : mapGet params KEY_FACEMATCH = FLAG_TRUE <;>
      by_cases h₂ : mapGet params KEY_EXTRA = FLAG_TRUE <;>
        simp [h₁, h₂, hupb]

/-- A fully successful submission environment over a signed-URL response
with all three slots populated. -/
def allOkSendEnv : SendEnv :=
  { signedUrl := Except.ok
      { Expires := "60000"
        Id := "ID1"
        StatusURL := "surl"
        URLs := [("document", "du"), ("selfie", "su"), ("extra_document", "eu")] }
    read := fun _ => some []
    put := fun _ => PutOutcome.response 200 }

/-- Witness for C1: with both flags requested, the upload traces of
SendJob and SendJobBase64 are document, then facematch file to the
selfie URL, then extra file to the extra_document URL. -/
theorem sendJob_uploads_facematch_to_selfie_witness :
    (SendJob allOkSendEnv "doc.png" "face.png" "extra.png"
        [("facematch", "true"), ("extra-document", "true")]).1
      = [("du", "doc.png")] ++ [("su", "face.png")] ++ [("eu", "extra.png")] ∧
    (SendJobBase64 allOkSendEnv "doc64" "face64" "extra64"
        [("facematch", "true"), ("extra-document", "true")]).1
      = [("du", "doc64")] ++ [("su", "face64")] ++ [("eu", "extra64")] := by
  have h := sendJob_uploads_facematch_to_selfie allOkSendEnv
    { Expires := "60000"
      Id := "ID1"
      StatusURL := "surl"
      URLs := [("document", "du"), ("selfie", "su"), ("extra_document", "eu")] }
    "doc.png" "face.png" "extra.png" [("facematch", "true"), ("extra-document", "true")]
    rfl (fun p => by simp [allOkSendEnv]) (fun u => rfl) (by decide)
  have h₂ := sendJob_uploads_facematch_to_selfie allOkSendEnv
    { Expires := "60000"
      Id := "ID1"
      StatusURL := "surl"
      URLs := [("document", "du"), ("selfie", "su"), ("extra_document", "eu")] }
    "doc64" "face64" "extra64" [("facematch", "true"), ("extra-document", "true")]
    rfl (fun p => by simp [allOkSendEnv]) (fun u => rfl) (by decide)
  constructor
  · have := h.1
    simpa [mapGet, lookupFirst] using this
  · have := h₂.2
    simpa [mapGet, lookupFirst] using this

/-- A paginated environment: the first request is answered with the first
page and the token `tok`, every later request with the second page and an
empty token. -/
def twoPageFetch (jobs₁ jobs₂ : List JobResultResponse) (tok : String) :
    Nat → GetOutcome
  | 0 => GetOutcome.response 200 (GetJobsBody.pageBody jobs₁ tok)
  | _ + 1 => GetOutcome.response 200 (GetJobsBody.pageBody jobs₂ "")

/-- C8: when the first page carries a non-empty next-page token and the
second page carries an empty one, GetJobs issues exactly two requests —
the second carrying nextPageToken set to the token of the first page —
and returns the first page's jobs followed by the second page's jobs. -/
theorem getJobs_two_pages (c : Client) (jobs₁ jobs₂ : List JobResultResponse)
    (tok start endD : String) (fuel : Nat) (htok : tok ≠ "") :
    GetJobs c (twoPageFetch jobs₁ jobs₂ tok) start endD (fuel + 2)
      = some ([[("startDate", start), ("endtDate", endD)],
               [("startDate", start), ("endtDate", endD), ("nextPageToken", tok)]],
          Except.ok (jobs₁ ++ jobs₂)) ∧
    mapGet [("startDate", start), ("endtDate", endD), ("nextPageToken", tok)]
        "nextPageToken" = tok := by
  constructor
  · have hstep : fuel + 2 = (fuel + 1) + 1 := rfl
    simp only [GetJobs, hstep, getJobsLoopFuel, twoPageFetch]
    simp [htok, mapSet, getJobsLoopFuel]
  · simp [mapGet, lookupFirst]

/-- A concrete job record with the given id and empty remaining fields. -/
def sampleJob (id : String) : JobResultResponse :=
  { Result := ""
    JobID := id
    CreatedAt := ""
    Service := ""
    Status := "done"
    Error := ""
    ProcessTime := ""
    Filename := ""
    ValidationStatus := "" }

/-- Witness for C8 at a concrete two-page run with token "X". -/
theorem getJobs_two_pages_witness :
    GetJobs NewClient (twoPageFetch [sampleJob "J1"] [sampleJob "J2"] "X")
        "2024-01-01" "2024-01-31" 2
      = some ([[("startDate", "2024-01-01"), ("endtDate", "2024-01-31")],
               [("startDate", "2024-01-01"), ("endtDate", "2024-01-31"),
                ("nextPageToken", "X")]],
          Except.ok ([sampleJob "J1"] ++ [sampleJob "J2"])) ∧
    mapGet [("startDate", "2024-01-01"), ("endtDate", "2024-01-31"),
        ("nextPageToken", "X")] "nextPageToken" = "X" :=
  getJobs_two_pages NewClient [sampleJob "J1"] [sampleJob "J2"] "X"
    "2024-01-01" "2024-01-31" 0 (by decide)

/-- On a fetch sequence that never turns terminal, the job polling loop,
entered at iteration k (with k + j = T / I + 1) at time t₀ + k * I with a
deadline of t₀ + T, returns the timeout error at time
t₀ + (T / I + 1) * I, for every fuel of at least j + 1 further
iterations. -/
theorem waitJobLoop_timeout_aux (fetch : Nat → Except SdkError JobResultResponse)
    (I T t₀ : Nat) (hI : 0 < I)
    (hfetch : ∀ k, ∃ r, fetch k = Except.ok r ∧
      r.Status ≠ STATUS_DONE ∧ r.Status ≠ STATUS_ERROR) :
    ∀ j k, k + j = T / I + 1 →
      ∀ extra, waitForJobDoneFuel fetch I (t₀ + T) (j + 1 + extra) k (t₀ + k * I)
        = some (Except.error SdkError.timeout, t₀ + (T / I + 1) * I) := by
  have hmod := Nat.div_add_mod T I
  have hmlt : T % I < I := Nat.mod_lt T hI
  have hTlt : T < (T / I + 1) * I := by
    have hexp : (T / I + 1) * I = I * (T / I) + I := by ring
    omega
  have hTge : ∀ k, k ≤ T / I → k * I ≤ T := by
    intro k hk
    have h₁ : k * I ≤ (T / I) * I := Nat.mul_le_mul_right I hk
    have h₂ : (T / I) * I = I * (T / I) := Nat.mul_comm _ _
    omega
  intro j
  induction j with
  | zero =>
    intro k hk extra
    have hkN : k = T / I + 1 := by omega
    subst hkN
    obtain ⟨r, hr, hd, he⟩ := hfetch (T / I + 1)
    have hterm : ¬ (r.Status = STATUS_DONE ∨ r.Status = STATUS_ERROR) := by tauto
    have hdl : t₀ + T < t₀ + (T / I + 1) * I := by omega
    have hfuel : 0 + 1 + extra = extra + 1 := by omega
    rw [hfuel]
    simp only [waitForJobDoneFuel, hr]
    rw [if_neg hterm, if_pos hdl]
  | succ j ih =>
    intro k hk extra
    obtain ⟨r, hr, hd, he⟩ := hfetch k
    have hterm : ¬ (r.Status = STATUS_DONE ∨ r.Status = STATUS_ERROR) := by tauto
    have hkN : k ≤ T / I := by omega
    have hdl : ¬ (t₀ + T < t₀ + k * I) := by
      have := hTge k hkN
      omega
    have hfuel : j + 1 + 1 + extra = (j + 1 + extra) + 1 := by omega
    rw [hfuel]
    have hnow : t₀ + k * I + I = t₀ + (k + 1) * I := by ring
    have hrec := ih (k + 1) (by omega) extra
    simp only [waitForJobDoneFuel, hr]
    rw [if_neg hterm, if_neg hdl, hnow]
    exact hrec

/-- The batch analogue of the timeout lemma for the batch polling loop. -/
theorem waitBatchLoop_timeout_aux (fetch : Nat → Except SdkError BatchStatusResponse)
    (I T t₀ : Nat) (hI : 0 < I)
    (hfetch : ∀ k, ∃ r, fetch k = Except.ok r ∧
      r.Status ≠ STATUS_DONE ∧ r.Status ≠ STATUS_ERROR) :
    ∀ j k, k + j = T / I + 1 →
      ∀ extra, waitForBatchLoopFuel fetch I (t₀ + T) (j + 1 + extra) k (t₀ + k * I)
        = some (Except.error SdkError.timeout, t₀ + (T / I + 1) * I) := by
  have hmod := Nat.div_add_mod T I
  have hmlt : T % I < I := Nat.mod_lt T hI
  have hTlt : T < (T / I + 1) * I := by
    have hexp : (T / I + 1) * I = I * (T / I) + I := by ring
    omega
  have hTge : ∀ k, k ≤ T / I → k * I ≤ T := by
    intro k hk
    have h₁ : k * I ≤ (T / I) * I := Nat.mul_le_mul_right I hk
    have h₂ : (T / I) * I = I * (T / I) := Nat.mul_comm _ _
    omega
  intro j
  induction j with
  | zero =>
    intro k hk extra
    have hkN : k = T / I + 1 := by omega
    subst hkN
    obtain ⟨r, hr, hd, he⟩ := hfetch (T / I + 1)
    have hterm : ¬ (r.Status = STATUS_DONE ∨ r.Status = STATUS_ERROR) := by tauto
    have hdl : t₀ + T < t₀ + (T / I + 1) * I := by omega
    have hfuel : 0 + 1 + extra = extra + 1 := by omega
    rw [hfuel]
    simp only [waitForBatchLoopFuel, hr]
    rw [if_neg hterm, if_pos hdl]
  | succ j ih =>
    intro k hk extra
    obtain ⟨r, hr, hd, he⟩ := hfetch k
    have hterm : ¬ (r.Status = STATUS_DONE ∨ r.Status = STATUS_ERROR) := by tauto
    have hkN : k ≤ T / I := by omega
    have hdl : ¬ (t₀ + T < t₀ + k * I) := by
      have := hTge k hkN
      omega
    have hfuel : j + 1 + 1 + extra = (j + 1 + extra) + 1 := by omega
    rw [hfuel]
    have hnow : t₀ + k * I + I = t₀ + (k + 1) * I := by ring
    have hrec := ih (k + 1) (by omega) extra
    simp only [waitForBatchLoopFuel, hr]
    rw [if_neg hterm, if_neg hdl, hnow]
    exact hrec

/-- C2: with a positive poll interval I no greater than the timeout T, a
status sequence that never becomes terminal makes WaitForJobDone (and
likewise WaitForBatchDone, whatever its waitJobs argument) terminate
with the timeout error: the loop runs exactly T / I + 2 iterations —
its result is unchanged by any extra iteration budget — and the time
elapsed when it fails, (T / I + 1) * I seconds, exceeds T by at most
I. -/
theorem wait_times_out (c : Client) (t₀ : Nat)
    (fetch : Nat → Except SdkError JobResultResponse)
    (fetchB : Nat → Except SdkError BatchStatusResponse)
    (fetchJob : String → Nat → Except SdkError JobResultResponse)
    (waitJobs : Bool)
    (hI : 0 < c.Interval) (hIT : c.Interval ≤ c.Timeout)
    (hfetch : ∀ k, ∃ r, fetch k = Except.ok r ∧
      r.Status ≠ STATUS_DONE ∧ r.Status ≠ STATUS_ERROR)
    (hfetchB : ∀ k, ∃ r, fetchB k = Except.ok r ∧
      r.Status ≠ STATUS_DONE ∧ r.Status ≠ STATUS_ERROR) :
    (∀ extra, WaitForJobDone c fetch t₀ (c.Timeout / c.Interval + 2 + extra)
      = some (Except.error SdkError.timeout,
          t₀ + (c.Timeout / c.Interval + 1) * c.Interval)) ∧
    (∀ extra, WaitForBatchDone c fetchB fetchJob waitJobs t₀
        (c.Timeout / c.Interval + 2 + extra)
      = some (Except.error SdkError.timeout,
          t₀ + (c.Timeout / c.Interval + 1) * c.Interval)) ∧
    c.Timeout < (c.Timeout / c.Interval + 1) * c.Interval ∧
    (c.Timeout / c.Interval + 1) * c.Interval ≤ c.Timeout + c.Interval := by
  have hjob : ∀ extra,
      waitForJobDoneFuel fetch c.Interval (t₀ + c.Timeout)
        (c.Timeout / c.Interval + 2 + extra) 0 t₀
      = some (Except.error SdkError.timeout,
          t₀ + (c.Timeout / c.Interval + 1) * c.Interval) := by
    intro extra
    have h := waitJobLoop_timeout_aux fetch c.Interval c.Timeout t₀ hI hfetch
      (c.Timeout / c.Interval + 1) 0 (by omega) extra
    have hz : t₀ + 0 * c.Interval = t₀ := by ring
    rw [hz] at h
    have hf : c.Timeout / c.Interval + 2 + extra
        = c.Timeout / c.Interval + 1 + 1 + extra := by omega
    rw [hf]
    exact h
  have hbatch : ∀ extra,
      waitForBatchLoopFuel fetchB c.Interval (t₀ + c.Timeout)
        (c.Timeout / c.Interval + 2 + extra) 0 t₀
      = some (Except.error SdkError.timeout,
          t₀ + (c.Timeout / c.Interval + 1) * c.Interval) := by
    intro extra
    have h := waitBatchLoop_timeout_aux fetchB c.Interval c.Timeout t₀ hI hfetchB
      (c.Timeout / c.Interval + 1) 0 (by omega) extra
    have hz : t₀ + 0 * c.Interval = t₀ := by ring
    rw [hz] at h
    have hf : c.Timeout / c.Interval + 2 + extra
        = c.Timeout / c.Interval + 1 + 1 + extra := by omega
    rw [hf]
    exact h
  refine ⟨fun extra => hjob extra, fun extra => ?_, ?_, ?_⟩
  · simp [WaitForBatchDone, hbatch extra]
  · have hmod := Nat.div_add_mod c.Timeout c.Interval
    have hmlt : c.Timeout % c.Interval < c.Interval := Nat.mod_lt _ hI
    have hexp : (c.Timeout / c.Interval + 1) * c.Interval
        = c.Interval * (c.Timeout / c.Interval) + c.Interval := by ring
    omega
  · have hle : c.Timeout / c.Interval * c.Interval ≤ c.Timeout :=
      Nat.div_mul_le_self c.Timeout c.Interval
    have hexp : (c.Timeout / c.Interval + 1) * c.Interval
        = c.Timeout / c.Interval * c.Interval + c.Interval := by ring
    omega

/-- A job record that is still processing. -/
def processingJob : JobResultResponse :=
  { Result := ""
    JobID := "J"
    CreatedAt := ""
    Service := ""
    Status := "processing"
    Error := ""
    ProcessTime := ""
    Filename := ""
    ValidationStatus := "" }

/-- A batch record that is still processing, with no job summaries. -/
def processingBatch : BatchStatusResponse :=
  { BatchID := "B"
    CreatedAt := ""
    Service := ""
    Status := "processing"
    Error := ""
    Jobs := [] }

/-- A client polling every second with a two-second timeout. -/
def pollClient : Client :=
  { NewClient with Interval := 1, Timeout := 2 }

/-- Witness for C2: against permanently processing fetches, a client with
interval 1 and timeout 2 times out after 4 iterations at time 3 (between
T = 2 exclusive and T + I = 3 inclusive), for the job wait and the batch
wait alike. -/
theorem wait_times_out_witness :
    WaitForJobDone pollClient (fun _ => Except.ok processingJob) 0 4
      = some (Except.error SdkError.timeout, 3) ∧
    WaitForBatchDone pollClient (fun _ => Except.ok processingBatch)
        (fun _ _ => Except.ok processingJob) false 0 4
      = some (Except.error SdkError.timeout, 3) := by
  have h := wait_times_out pollClient 0 (fun _ => Except.ok processingJob)
    (fun _ => Except.ok processingBatch) (fun _ _ => Except.ok processingJob) false
    (by decide) (by decide)
    (fun k => ⟨processingJob, rfl, by decide, by decide⟩)
    (fun k => ⟨processingBatch, rfl, by decide, by decide⟩)
  refine ⟨?_, ?_⟩
  · have h₁ := h.1 0
    simpa [pollClient, NewClient] using h₁
  · have h₂ := h.2.1 0
    simpa [pollClient, NewClient] using h₂

/-- C6: as soon as a status fetch returns a record whose status is done
or error, the polling loop hands that record back with a nil error at
that very moment — whatever the deadline, including a deadline already in
the past — for the job loop and the batch loop alike, and
WaitForBatchDone without waitJobs returns it as its result; in
particular a remote status of "error" comes back as a normal value, not
as a failure of the call. -/
theorem wait_returns_terminal_immediately (c : Client)
    (fetch : Nat → Except SdkError JobResultResponse)
    (fetchB : Nat → Except SdkError BatchStatusResponse)
    (fetchJob : String → Nat → Except SdkError JobResultResponse)
    (interval deadline fuel k now : Nat)
    (r : JobResultResponse) (b : BatchStatusResponse)
    (hr : fetch k = Except.ok r)
    (hterm : r.Status = STATUS_DONE ∨ r.Status = STATUS_ERROR)
    (hb : fetchB 0 = Except.ok b)
    (hbterm : b.Status = STATUS_DONE ∨ b.Status = STATUS_ERROR) :
    waitForJobDoneFuel fetch interval deadline (fuel + 1) k now
      = some (Except.ok r, now) ∧
    waitForBatchLoopFuel fetchB interval deadline (fuel + 1) 0 now
      = some (Except.ok b, now) ∧
    WaitForBatchDone c fetchB fetchJob false now (fuel + 1)
      = some (Except.ok b, now) := by
  have h₁ : waitForJobDoneFuel fetch interval deadline (fuel + 1) k now
      = some (Except.ok r, now) := by
    rcases hterm with h | h <;> simp [waitForJobDoneFuel, hr, h]
  have h₂ : ∀ i d, waitForBatchLoopFuel fetchB i d (fuel + 1) 0 now
      = some (Except.ok b, now) := by
    intro i d
    rcases hbterm with h | h <;> simp [waitForBatchLoopFuel, hb, h]
  refine ⟨h₁, h₂ interval deadline, ?_⟩
  simp [WaitForBatchDone, h₂ c.Interval (now + c.Timeout)]

/-- A job record with terminal status "error". -/
def errorJob : JobResultResponse :=
  { Result := ""
    JobID := "J"
    CreatedAt := ""
    Service := ""
    Status := "error"
    Error := "bad image"
    ProcessTime := ""
    Filename := ""
    ValidationStatus := "" }

/-- A batch record with terminal status "error". -/
def errorBatch : BatchStatusResponse :=
  { BatchID := "B"
    CreatedAt := ""
    Service := ""
    Status := "error"
    Error := "bad batch"
    Jobs := [] }

/-- Witness for C6: a fetch answering status "error" at time 5 against a
deadline of 0 — already elapsed — is returned immediately as a normal
value by both loops and by WaitForBatchDone. -/
theorem wait_returns_terminal_immediately_witness :
    waitForJobDoneFuel (fun _ => Except.ok errorJob) 1 0 1 0 5
      = some (Except.ok errorJob, 5) ∧
    waitForBatchLoopFuel (fun _ => Except.ok errorBatch) 1 0 1 0 5
      = some (Except.ok errorBatch, 5) ∧
    WaitForBatchDone NewClient (fun _ => Except.ok errorBatch)
        (fun _ _ => Except.ok errorJob) false 5 1
      = some (Except.ok errorBatch, 5) :=
  wait_returns_terminal_immediately NewClient (fun _ => Except.ok errorJob)
    (fun _ => Except.ok errorBatch) (fun _ _ => Except.ok errorJob)
    1 0 0 0 5 errorJob errorBatch rfl (Or.inr (by decide)) rfl (Or.inr (by decide))

end UltraOCR
